import Mathlib

/-!
Verification of the hybrid document/email classification engine of the
DocsEtc-Ai repository (src/agents/classifier_agent.py, src/agents/email_agent.py,
src/utils/llm_utils.py), shallowly embedded in Lean.

Python strings are modelled as Lean `String`/`List Char`; the `re` regular
expressions of the source are embedded via a small backtracking matcher whose
result list is ordered exactly in the priority order of the Python `re`
backtracking engine (alternation left to right, quantifiers greedy longest
first, leftmost match wins); machine floats are modelled as exact rationals;
the external model call (Ollama) is modelled by an explicit environment value
describing the outcome of the call, since the pure code only ever observes
that outcome.
-/

/-! ## Python string primitives -/

/-- Python whitespace for `str.strip` and the regex class `\s`
(space, tab, newline, carriage return, vertical tab, form feed). -/
def isPyWs (c : Char) : Bool :=
  c = ' ' || c = '\t' || c = '\n' || c = '\r' || c = '\x0b' || c = '\x0c'

/-- Python `str.strip()`: remove leading and trailing whitespace. -/
def pyStrip (s : List Char) : List Char :=
  (((s.dropWhile isPyWs).reverse).dropWhile isPyWs).reverse

/-- Python `str.lower()` (ASCII case mapping). -/
def pyLower (s : String) : String :=
  ⟨s.data.map Char.toLower⟩

/-- Fuel-driven scanner for Python `str.count`: counts non-overlapping
occurrences of `needle`, scanning left to right. -/
def pyCountAux (needle : List Char) : Nat → List Char → Nat
  | 0, _ => 0
  | _ + 1, [] => 0
  | fuel + 1, c :: rest =>
    if needle.isPrefixOf (c :: rest) then
      1 + pyCountAux needle fuel ((c :: rest).drop needle.length)
    else
      pyCountAux needle fuel rest

/-- Python `hay.count(needle)` for a non-empty needle. -/
def pyCount (needle hay : List Char) : Nat :=
  pyCountAux needle (hay.length + 1) hay

/-- Python substring test `needle in hay`. -/
def pySubstr (needle : List Char) : List Char → Bool
  | [] => needle.isEmpty
  | c :: rest => needle.isPrefixOf (c :: rest) || pySubstr needle rest

/-! ## Regular expressions

Only the constructs used by the source patterns are embedded: literals
(case-insensitive, matching flag `re.IGNORECASE`), character classes,
sequencing, alternation, greedy `?`, and greedy `*`, `+`, `{lo,hi}` over
character classes (every quantified subexpression in the source patterns is a
single character class), plus one capture group per pattern. -/

inductive RE where
  | eps
  | cls (p : Char → Bool)
  | seq (a b : RE)
  | alt (a b : RE)
  | opt (a : RE)
  | starCls (p : Char → Bool)
  | plusCls (p : Char → Bool)
  | repCls (lo hi : Nat) (p : Char → Bool)
  | group (a : RE)

/-- All ways the regex can match a prefix of `s`, in Python backtracking
priority order; each result is the remaining suffix together with the text of
the capture group, when one was traversed. -/
def matchAll : RE → List Char → List (List Char × Option (List Char))
  | RE.eps, s => [(s, none)]
  | RE.cls p, s =>
    match s with
    | [] => []
    | c :: rest => if p c then [(rest, none)] else []
  | RE.seq a b, s =>
    (matchAll a s).flatMap
      (fun r1 => (matchAll b r1.1).map (fun r2 => (r2.1, r1.2 <|> r2.2)))
  | RE.alt a b, s => matchAll a s ++ matchAll b s
  | RE.opt a, s => matchAll a s ++ [(s, none)]
  | RE.starCls p, s =>
    let n := (s.takeWhile p).length
    (List.range (n + 1)).map (fun i => (s.drop (n - i), none))
  | RE.plusCls p, s =>
    let n := (s.takeWhile p).length
    (List.range n).map (fun i => (s.drop (n - i), none))
  | RE.repCls lo hi p, s =>
    let n := (s.takeWhile p).length
    if n < lo then []
    else (List.range (Nat.min n hi - lo + 1)).map
      (fun i => (s.drop (Nat.min n hi - i), none))
  | RE.group a, s =>
    (matchAll a s).map (fun r => (r.1, some (s.take (s.length - r.1.length))))

/-- `re.search` scanning: first position (leftmost) where the pattern
matches; returns the capture-group text of the highest-priority match there. -/
def searchGroupAux (r : RE) : List Char → Option (Option (List Char))
  | [] =>
    match matchAll r [] with
    | [] => none
    | (_, g) :: _ => some g
  | c :: rest =>
    match matchAll r (c :: rest) with
    | (_, g) :: _ => some g
    | [] => searchGroupAux r rest

/-- `m = re.search(r, s); m.group(1) if m else None` for the source patterns,
whose capture group always participates in a successful match. -/
def reSearchGroup1 (r : RE) (s : List Char) : Option (List Char) :=
  match searchGroupAux r s with
  | some (some g) => some g
  | _ => none

/-- `len(re.findall(r, s))`: non-overlapping matches scanning left to right;
each found match advances past its end (at least one character). -/
def reCountAux (r : RE) : Nat → List Char → Nat
  | 0, _ => 0
  | _ + 1, [] => if (matchAll r []).isEmpty then 0 else 1
  | fuel + 1, c :: rest =>
    match matchAll r (c :: rest) with
    | [] => reCountAux r fuel rest
    | (s2, _) :: _ =>
      1 + reCountAux r fuel
        ((c :: rest).drop (Nat.max ((c :: rest).length - s2.length) 1))

/-- Match count of `re.findall` over the whole string. -/
def reCount (r : RE) (s : List Char) : Nat :=
  reCountAux r (s.length + 1) s

/-! ### Character classes and pattern combinators used by the source -/

def isDigitC (c : Char) : Bool := c.isDigit

/-- `\w` over the ASCII range. -/
def isWordC (c : Char) : Bool := c.isAlphanum || c = '_'

/-- The class of letters, digits, dash, slash and underscore
(source class a-z 0-9 dash slash underscore, under `re.IGNORECASE`). -/
def isTokenC (c : Char) : Bool :=
  ('a' ≤ c && c ≤ 'z') || ('A' ≤ c && c ≤ 'Z') || c.isDigit ||
    c = '-' || c = '/' || c = '_'

/-- `[\d,]`. -/
def isDigitCommaC (c : Char) : Bool := c.isDigit || c = ','

/-- `[/\-.]`. -/
def isDateSepC (c : Char) : Bool := c = '/' || c = '-' || c = '.'

/-- `[^\n\r]`. -/
def isNotNlC (c : Char) : Bool := !(c = '\n' || c = '\r')

/-- Single literal character under `re.IGNORECASE`. -/
def rchar (c : Char) : RE := RE.cls (fun x => x.toLower = c.toLower)

/-- Literal string under `re.IGNORECASE`. -/
def rstr (s : String) : RE := s.data.foldr (fun c acc => RE.seq (rchar c) acc) RE.eps

/-- Sequence a list of regexes. -/
def rseq (l : List RE) : RE := l.foldr RE.seq RE.eps

/-- `\s*`. -/
def rws : RE := RE.starCls isPyWs

/-- Left-to-right alternation of a non-empty list. -/
def ralts : List RE → RE
  | [] => RE.eps
  | [r] => r
  | r :: rs => RE.alt r (ralts rs)

/-! ## ClassifierAgent.document_types (src/agents/classifier_agent.py:35-60) -/

/-- The six taxonomy entries with their keywords and patterns, in dict
insertion order. -/
def documentTypes : List (String × List String × List RE) :=
  [ ("INVOICE",
      (["invoice", "bill", "payment", "amount", "total", "due", "tax",
        "subtotal", "billing", "remit"],
       [rseq [rstr "invoice", rws, RE.opt (rchar '#'), rws, RE.plusCls isDigitC],
        rseq [rstr "bill", rws, RE.opt (rchar '#'), rws, RE.plusCls isDigitC],
        rseq [rstr "total", rws, RE.opt (rchar ':'), rws, RE.opt (rchar '$'), rws,
              RE.plusCls isDigitCommaC, RE.opt (rchar '.'), RE.repCls 0 2 isDigitC],
        rseq [rstr "amount", rws, rstr "due"]])),
    ("QUOTE_REQUEST",
      (["quote", "quotation", "estimate", "proposal", "request", "rfq", "bid"],
       [rseq [rstr "request", rws, rstr "for", rws, rstr "quote"],
        rstr "rfq",
        rseq [rstr "estimate", rws, rstr "request"]])),
    ("CONTRACT",
      (["contract", "agreement", "terms", "conditions", "party", "whereas",
        "liability", "effective date"],
       [rseq [rstr "this", rws, rstr "agreement"],
        rseq [rstr "terms", rws, rstr "and", rws, rstr "conditions"],
        rseq [rstr "contract", rws, RE.opt (rchar '#'), rws, RE.plusCls isWordC]])),
    ("PURCHASE_ORDER",
      (["purchase", "order", "po", "procurement", "vendor", "supplier",
        "delivery"],
       [rseq [rstr "purchase", rws, rstr "order"],
        rseq [rstr "po", rws, RE.opt (rchar '#'), rws, RE.plusCls isDigitC],
        rseq [rstr "order", rws, RE.opt (rchar '#'), rws, RE.plusCls isDigitC]])),
    ("RECEIPT",
      (["receipt", "paid", "transaction", "payment received",
        "thank you for your purchase", "change due"],
       [rseq [rstr "receipt", rws, RE.opt (rchar '#'), rws, RE.plusCls isDigitC],
        rseq [rstr "transaction", rws, rstr "id"],
        rseq [rstr "payment", rws, rstr "received"],
        rseq [rstr "total", rws, rstr "paid"]])),
    ("GENERAL_INQUIRY",
      (["inquiry", "question", "help", "support", "information", "request",
        "query", "assistance"],
       [rseq [rstr "can", rws, rstr "you", rws, rstr "help"],
        rseq [rstr "i", rws, rstr "have", rws, rstr "a", rws, rstr "question"],
        rseq [rstr "could", rws, rstr "you", rws, rstr "provide"],
        rseq [rstr "seeking", rws, rstr "information"]])) ]

/-- The fixed taxonomy: `self.document_types.keys()`. -/
def taxonomyKeys : List String := documentTypes.map (fun e => e.1)

/-! ## ClassifierAgent.classify_with_rules (classifier_agent.py:162-207) -/

/-- Score of one taxonomy entry: `+= count * 2` per keyword,
`+= matches * 3` per pattern (lines 180-187). -/
def typeScore (textLower : List Char) (keywords : List String)
    (patterns : List RE) : Nat :=
  patterns.foldl (fun acc p => acc + reCount p textLower * 3)
    (keywords.foldl (fun acc kw => acc + pyCount (pyLower kw).data textLower * 2) 0)

/-- The transient score mapping `scores` (lines 177-187). -/
def ruleScores (text : String) : List (String × Nat) :=
  documentTypes.map (fun e => (e.1, typeScore (pyLower text).data e.2.1 e.2.2))

/-- Python `max(scores.values())` (guarded by non-emptiness in the source). -/
def maxScoreVal (l : List (String × Nat)) : Nat :=
  l.foldl (fun a p => Nat.max a p.2) 0

/-- Python `max(scores, key=scores.get)`: first key attaining the maximal
value, in insertion order. -/
def pyMaxByVal : List (String × Nat) → Option (String × Nat)
  | [] => none
  | p :: rest => some (rest.foldl (fun best q => if best.2 < q.2 then q else best) p)

/-- Python `scores[best_type]` (keys are distinct). -/
def lookupScore (l : List (String × Nat)) (k : String) : Nat :=
  ((l.find? (fun p => p.1 = k)).map (fun p => p.2)).getD 0

/-- Round-half-to-even on rationals, the rounding Python `round` uses on the
numeric value. `q.num / q.den` is the floor of `q` (`Rat.floor_def`) and
`r / q.den` its fractional part, so the three branches are fraction below,
above, and exactly at one half; everything is integer arithmetic so the
function evaluates by kernel reduction. -/
def rndHalfEven (q : ℚ) : ℤ :=
  let f : ℤ := q.num / q.den
  let r : ℤ := q.num - f * q.den
  if 2 * r < (q.den : ℤ) then f
  else if (q.den : ℤ) < 2 * r then f + 1
  else if f % 2 = 0 then f else f + 1

/-- Python `round(x, 2)` over exact rationals. -/
def roundTo2 (q : ℚ) : ℚ := (rndHalfEven (q * 100) : ℚ) / 100

structure RuleResult where
  document_type : String
  confidence : ℚ
  reasoning : String
  scores : List (String × Nat)
  deriving Repr, DecidableEq

/-- `ClassifierAgent.classify_with_rules` (lines 162-207): score every
taxonomy entry; if all scores are zero fall back to GENERAL_INQUIRY at
confidence 0.3, otherwise take the first maximal entry with confidence
`min(0.9, max_score / max(total_score, 1))`; the confidence is rounded to two
decimals in the returned dict. -/
def classify_with_rules (text : String) : RuleResult :=
  let scores := ruleScores text
  if scores = [] ∨ maxScoreVal scores = 0 then
    { document_type := "GENERAL_INQUIRY",
      confidence := roundTo2 (3 / 10),
      reasoning := "Rule-based classification based on keyword and pattern matching",
      scores := scores }
  else
    let best := (pyMaxByVal scores).getD ("GENERAL_INQUIRY", 0)
    let maxScore := lookupScore scores best.1
    let totalScore := scores.foldl (fun a p => a + p.2) 0
    { document_type := best.1,
      confidence := roundTo2 (min (9 / 10 : ℚ)
        ((maxScore : ℚ) / (Nat.max totalScore 1 : ℚ))),
      reasoning := "Rule-based classification based on keyword and pattern matching",
      scores := scores }

/-! ## ClassifierAgent.extract_key_information (classifier_agent.py:209-249) -/

/-- The shared optional prefix before a captured invoice/PO number:
`(?:#|no\.?|num(?:ber)?\s*)?`. -/
def numPrefixOpt : RE :=
  RE.opt (ralts
    [ rchar '#',
      rseq [rstr "no", RE.opt (rchar '.')],
      rseq [rstr "num", RE.opt (rstr "ber"), rws] ])

/-- Pattern of line 228, invoice number. -/
def invoiceNumRE : RE :=
  rseq [ ralts [rstr "invoice", rstr "bill"], rws, numPrefixOpt,
         RE.group (RE.plusCls isTokenC) ]

/-- Pattern of line 229, amount. -/
def amountRE : RE :=
  rseq [ ralts [rstr "total", rstr "amount", rstr "subtotal",
                rstr "balance due", rstr "net amount"],
         rws, RE.opt (rchar ':'), rws,
         RE.opt (ralts [rstr "usd", rstr "eur", rstr "gbp",
                        rchar '$', rchar '€', rchar '£']),
         rws,
         RE.group (rseq [RE.plusCls isDigitCommaC, RE.opt (rchar '.'),
                         RE.repCls 0 2 isDigitC]) ]

/-- Pattern of line 230, due date. -/
def dueDateRE : RE :=
  rseq [ ralts [rseq [rstr "due", rws, rstr "date"],
                rseq [rstr "payment", rws, rstr "due"],
                rstr "due"],
         rws, RE.opt (rchar ':'), rws,
         RE.group (RE.alt
           (rseq [RE.repCls 1 2 isDigitC, RE.cls isDateSepC,
                  RE.repCls 1 2 isDigitC, RE.cls isDateSepC,
                  RE.repCls 2 4 isDigitC])
           (rseq [RE.repCls 4 4 isDigitC, RE.cls isDateSepC,
                  RE.repCls 1 2 isDigitC, RE.cls isDateSepC,
                  RE.repCls 1 2 isDigitC])) ]

/-- Pattern of line 239, PO number. -/
def poNumRE : RE :=
  rseq [ ralts [rseq [rstr "purchase", rws, rstr "order"], rstr "po"],
         rws, numPrefixOpt,
         RE.group (RE.plusCls isTokenC) ]

/-- Pattern of line 240, vendor. -/
def vendorRE : RE :=
  rseq [ ralts [rstr "vendor", rstr "supplier",
                rseq [rstr "sold", rws, rstr "to"],
                rseq [rstr "ship", rws, rstr "to"]],
         rws, RE.opt (rchar ':'), rws,
         RE.group (RE.plusCls isNotNlC) ]

/-- `match.group(1).strip() if match else None`. -/
def groupStripped (r : RE) (s : List Char) : Option String :=
  (reSearchGroup1 r s).map (fun g => ⟨pyStrip g⟩)

/-- `match.group(1).replace(',', '') if match else None`. -/
def groupNoCommas (r : RE) (s : List Char) : Option String :=
  (reSearchGroup1 r s).map (fun g => ⟨g.filter (fun c => !(c = ','))⟩)

/-- `ClassifierAgent.extract_key_information` (lines 209-249): type-specific
regex extraction over the lowered text; types other than INVOICE and
PURCHASE_ORDER get an empty mapping. -/
def extract_key_information (text : String) (document_type : Option String) :
    List (String × Option String) :=
  let textLower := (pyLower text).data
  if document_type = some "INVOICE" then
    [ ("invoice_number", groupStripped invoiceNumRE textLower),
      ("amount", groupNoCommas amountRE textLower),
      ("due_date", groupStripped dueDateRE textLower) ]
  else if document_type = some "PURCHASE_ORDER" then
    [ ("po_number", groupStripped poNumRE textLower),
      ("vendor", groupStripped vendorRE textLower) ]
  else []

/-! ## The model path

`utils/llm_utils.call_ollama_llm` either returns a non-empty response string
or raises; `ClassifierAgent.classify_with_llm` (classifier_agent.py:94-160)
then parses and validates it. The embedding abstracts the pair
(transport outcome, `json.loads` outcome) into one environment value: what the
pure validation code observes. -/

/-- A parsed JSON value. Python `bool` passes an `isinstance(..., int)` check,
so it is kept separate from numbers; numbers are modelled as exact rationals.
Containers (lists/dicts) and strings are truthy iff non-empty, so composite
values carry their truthiness. -/
inductive JVal where
  | jstr (s : String)
  | jnum (q : ℚ)
  | jbool (b : Bool)
  | jnull
  | jcomposite (truthy : Bool)
  deriving Repr, DecidableEq

/-- Outcome of one `call_ollama_llm` invocation plus JSON parsing, as observed
by the validation code. -/
inductive LLMRaw where
  | exn                                  -- the call raised (timeout, connection, HTTP, empty response)
  | noText                               -- the call returned a falsy value (line 138 guard)
  | badParse                             -- `json.loads` raised JSONDecodeError
  | nonDict (truthy : Bool)              -- parsed, but not a JSON object
  | dict (obj : List (String × JVal))    -- parsed JSON object
  deriving Repr, DecidableEq

/-- Environment of one `ClassifierAgent.classify_document` request. -/
structure LLMEnv where
  utilsAvailable : Bool                  -- the import of call_ollama_llm succeeded
  connectionOk : Bool                    -- outcome of the /api/tags probe
  raw : LLMRaw
  deriving Repr, DecidableEq

/-- Python dict lookup `obj.get(k)` (keys of a parsed JSON object are
distinct). -/
def jget (obj : List (String × JVal)) (k : String) : Option JVal :=
  ((obj.find? (fun p => p.1 = k)).map (fun p => p.2))

/-- `isinstance(v, (str, float, int))`; Python bool is a subclass of int. -/
def isStrNumBool : JVal → Bool
  | JVal.jstr _ => true
  | JVal.jnum _ => true
  | JVal.jbool _ => true
  | _ => false

/-- Python truthiness of a JSON value. -/
def jtruthy : JVal → Bool
  | JVal.jstr s => !(s = "")
  | JVal.jnum q => !(q = 0)
  | JVal.jbool b => b
  | JVal.jnull => false
  | JVal.jcomposite t => t

/-- Python `obj.get(k) is not None` (missing key and a null value are
indistinguishable here, exactly as for `dict.get`). -/
def jgetNotNone (obj : List (String × JVal)) (k : String) : Bool :=
  match jget obj k with
  | some JVal.jnull => false
  | some _ => true
  | none => false

/-- `ClassifierAgent.check_ollama_connection` (lines 62-92): false when the
utility is unavailable, otherwise the probe outcome. -/
def check_ollama_connection (env : LLMEnv) : Bool :=
  env.utilsAvailable && env.connectionOk

/-- `ClassifierAgent.classify_with_llm` (lines 94-160). Returns the validated
response dict, or none on any failure: utility unavailable, call raised, falsy
response, unparseable response, missing/badly-typed `document_type` or
`confidence`, missing `reasoning`, `document_type` not in the taxonomy. A
string-valued `confidence` also yields none: the success log line formats it
with `:.2f`, which raises ValueError and is caught by the catch-all handler. -/
def classify_with_llm (avail : Bool) (raw : LLMRaw) : Option (List (String × JVal)) :=
  if !avail then none
  else
    match raw with
    | LLMRaw.dict obj =>
      if ((jget obj "document_type").map isStrNumBool).getD false &&
         ((jget obj "confidence").map isStrNumBool).getD false &&
         (jget obj "reasoning").isSome then
        match jget obj "document_type" with
        | some (JVal.jstr s) =>
          if taxonomyKeys.contains s then
            match jget obj "confidence" with
            | some (JVal.jstr _) => none
            | _ => some obj
          else none
        | _ => none
      else none
    | _ => none

/-- `v if isinstance(v, str) else None`, used to read the validated
document_type out of the response dict. -/
def asStr : Option JVal → Option String
  | some (JVal.jstr s) => some s
  | _ => none

/-! ## ClassifierAgent.classify_document (classifier_agent.py:251-324) -/

/-- The normalized result dict (lines 268-278); the `agent` and `timestamp`
bookkeeping fields carry no logic and are omitted. -/
structure ClassificationResult where
  success : Bool
  document_type : Option String
  confidence : JVal
  method_used : Option String
  reasoning : Option JVal
  extracted_info : List (String × Option String)
  error_message : Option String
  deriving Repr, DecidableEq

/-- The initial result value of lines 268-278. -/
def initResult : ClassificationResult :=
  { success := false, document_type := none, confidence := JVal.jnum 0,
    method_used := none, reasoning := none, extracted_info := [],
    error_message := none }

/-- The rule-based fallback branch (lines 302-313). -/
def ruleBranch (text : String) : ClassificationResult :=
  let rr := classify_with_rules text
  { initResult with
      success := true,
      document_type := some rr.document_type,
      confidence := JVal.jnum rr.confidence,
      method_used := some "Rule-based",
      reasoning := some (JVal.jstr rr.reasoning) }

/-- `ClassifierAgent.classify_document` (lines 251-324): reject blank input;
try the model when the utility imported and the connectivity probe succeeded;
accept a validated model answer (the truthiness re-check of line 293 is
embedded as written), otherwise fall back to the rule classifier; finally
extract key information from the final document type. Nothing in the embedded
paths raises, so the catch-all of line 321 is unreachable. -/
def classify_document (env : LLMEnv) (text : String) : ClassificationResult :=
  if text = "" ∨ pyStrip text.data = [] then
    { initResult with
        error_message := some "Empty or invalid text provided for classification." }
  else
    let llmResult :=
      if env.utilsAvailable && check_ollama_connection env then
        classify_with_llm env.utilsAvailable env.raw
      else none
    let step :=
      match llmResult with
      | some obj =>
        if !obj.isEmpty && ((jget obj "document_type").map jtruthy).getD false &&
           jgetNotNone obj "confidence" then
          { initResult with
              success := true,
              document_type := asStr (jget obj "document_type"),
              confidence := (jget obj "confidence").getD (JVal.jnum 0),
              method_used := some "LLM",
              reasoning := some ((jget obj "reasoning").getD
                (JVal.jstr "LLM-based classification")) }
        else ruleBranch text
      | none => ruleBranch text
    { step with extracted_info := extract_key_information text step.document_type }

/-! ## EmailAgent (src/agents/email_agent.py) -/

/-- Intent/urgency pair returned by both email classifiers. -/
structure EmailIntent where
  intent : String
  urgency : String
  deriving Repr, DecidableEq

/-- `EmailAgent._rule_based_email_intent` (email_agent.py:40-77): ordered
keyword rules over the lowered text, defaulting to General Inquiry / Normal. -/
def rule_based_email_intent (email_text : String) : EmailIntent :=
  let lower := (pyLower email_text).data
  let has := fun (kw : String) => pySubstr kw.data lower
  { intent :=
      if ["quote", "quotation", "estimate", "pricing"].any has then "Quote Request"
      else if ["order", "purchase", "procure", "buy"].any has then "Order"
      else if ["support", "help", "issue", "problem", "bug", "trouble"].any has then
        "Support"
      else if ["feedback", "suggestion", "review", "complaint"].any has then
        "Feedback"
      else "General Inquiry",
    urgency :=
      if ["urgent", "asap", "immediately", "critical", "down", "halted"].any has then
        "High"
      else if ["blocker", "outage"].any has then "Critical"
      else "Normal" }

/-- The allowed intent list of email_agent.py:132. -/
def allowedIntents : List String :=
  ["Quote Request", "Order", "General Inquiry", "Support", "Feedback", "Other"]

/-- The allowed urgency list of email_agent.py:133. -/
def allowedUrgencies : List String := ["Low", "Normal", "High", "Critical"]

/-- `EmailAgent._classify_email_intent_with_llm` (email_agent.py:79-157):
raises (modelled as `Except.error`) when the utility is unavailable, the call
raises, the response does not parse, or `intent`/`urgency` are missing or not
strings; an unknown intent is silently coerced to Other, an unknown urgency to
Normal. -/
def classify_email_intent_with_llm (avail : Bool) (raw : LLMRaw) :
    Except Unit EmailIntent :=
  if !avail then Except.error ()
  else
    match raw with
    | LLMRaw.dict obj =>
      match jget obj "intent", jget obj "urgency" with
      | some (JVal.jstr i), some (JVal.jstr u) =>
        Except.ok
          { intent := if allowedIntents.contains i then i else "Other",
            urgency := if allowedUrgencies.contains u then u else "Normal" }
      | _, _ => Except.error ()
    | _ => Except.error ()

/-- The polymorphic `email_input` argument of `process_email`
(email_agent.py:188-197): a string body, a dict, or anything else. -/
inductive EmailInput where
  | str (s : String)
  | dict (body : Option String) (text : Option String)
  | other
  deriving Repr, DecidableEq

/-- Environment of one `EmailAgent.process_email` request. -/
structure EmailEnv where
  utilsAvailable : Bool
  raw : LLMRaw
  deriving Repr, DecidableEq

/-- Result dict of `process_email` (email_agent.py:179-186); the `agent`
field is omitted. -/
structure EmailResult where
  success : Bool
  intent : String
  urgency : String
  method_used : Option String
  error_message : Option String
  deriving Repr, DecidableEq

/-- `email_input.get('body') or email_input.get('text') or ""`: the Python
`or` chain takes the first truthy (non-empty) string. -/
def emailTextOf : EmailInput → String
  | EmailInput.str s => s
  | EmailInput.dict body text =>
    let b := body.getD ""
    if !(b = "") then b else text.getD ""
  | EmailInput.other => ""

/-- `EmailAgent.process_email` (email_agent.py:159-234): reject non-string,
non-dict input and blank content; try the model path when available, falling
back to the ordered rules on any model failure. -/
def process_email (env : EmailEnv) (input : EmailInput) : EmailResult :=
  let base : EmailResult :=
    { success := false, intent := "Unknown", urgency := "Unknown",
      method_used := none, error_message := none }
  match input with
  | EmailInput.other =>
    { base with error_message := some "Invalid email input type." }
  | _ =>
    let emailText := emailTextOf input
    if emailText = "" ∨ pyStrip emailText.data = [] then
      { base with
          error_message := some "Empty or invalid email content provided for processing." }
    else
      let viaRules := fun (_ : Unit) =>
        let rr := rule_based_email_intent emailText
        { base with
            success := true, intent := rr.intent, urgency := rr.urgency,
            method_used := some "Rule-based" }
      if env.utilsAvailable then
        match classify_email_intent_with_llm env.utilsAvailable env.raw with
        | Except.ok r =>
          { base with
              success := true, intent := r.intent, urgency := r.urgency,
              method_used := some "LLM" }
        | Except.error _ => viaRules ()
      else viaRules ()

/-! ## Helper lemmas -/

lemma rndHalfEven_nonneg (q : ℚ) (h : 0 ≤ q) : 0 ≤ rndHalfEven q := by
  simp only [rndHalfEven]
  have hf : (0 : ℤ) ≤ q.num / q.den := by
    rw [← Rat.floor_def]
    exact Int.floor_nonneg.mpr h
  split_ifs <;> omega

/-- In the two upper branches of `rndHalfEven` the fractional part is
positive, so a rational bounded by an integer has its floor strictly below
that integer. -/
lemma rndHalfEven_floor_lt (q : ℚ) (n : ℤ) (h : q ≤ n)
    (hbr : ¬2 * (q.num - q.num / q.den * q.den) < (q.den : ℤ)) : ⌊q⌋ < n := by
  have hf : ⌊q⌋ ≤ n := by
    have := Int.floor_le_floor (α := ℚ) h
    simpa using this
  rcases lt_or_eq_of_le hf with hlt | heq
  · exact hlt
  · exfalso
    apply hbr
    have hq : q = ((⌊q⌋ : ℤ) : ℚ) := by
      have h1 : q ≤ (⌊q⌋ : ℚ) := by
        rw [heq]
        exact_mod_cast h
      exact le_antisymm h1 (Int.floor_le q)
    have hnum : q.num = ⌊q⌋ := by
      rw [hq]
      simp
    have hden : q.den = 1 := by
      rw [hq]
      simp
    rw [hnum, hden]
    simp

lemma rndHalfEven_le_int (q : ℚ) (n : ℤ) (h : q ≤ n) : rndHalfEven q ≤ n := by
  simp only [rndHalfEven]
  have hfq : q.num / q.den = ⌊q⌋ := (Rat.floor_def).symm
  have hf : ⌊q⌋ ≤ n := by
    have := Int.floor_le_floor (α := ℚ) h
    simpa using this
  split_ifs with h1 h2 h3
  · rw [hfq]; exact hf
  · have := rndHalfEven_floor_lt q n h h1
    rw [hfq]; omega
  · rw [hfq]; exact hf
  · have := rndHalfEven_floor_lt q n h h1
    rw [hfq]; omega

lemma roundTo2_nonneg {q : ℚ} (h : 0 ≤ q) : 0 ≤ roundTo2 q := by
  unfold roundTo2
  have h100 : (0 : ℚ) ≤ q * 100 := by linarith
  have hz : (0 : ℤ) ≤ rndHalfEven (q * 100) := rndHalfEven_nonneg _ h100
  have : (0 : ℚ) ≤ (rndHalfEven (q * 100) : ℚ) := by exact_mod_cast hz
  linarith

lemma roundTo2_le_cap {q : ℚ} (h : q ≤ 9 / 10) : roundTo2 q ≤ 9 / 10 := by
  unfold roundTo2
  have h100 : q * 100 ≤ ((90 : ℤ) : ℚ) := by push_cast; linarith
  have hz : rndHalfEven (q * 100) ≤ 90 := rndHalfEven_le_int _ 90 h100
  have : (rndHalfEven (q * 100) : ℚ) ≤ 90 := by exact_mod_cast hz
  linarith

lemma pickMax_foldl_mem (l : List (String × Nat)) (p : String × Nat) :
    l.foldl (fun best q => if best.2 < q.2 then q else best) p = p ∨
      l.foldl (fun best q => if best.2 < q.2 then q else best) p ∈ l := by
  induction l generalizing p with
  | nil => exact Or.inl rfl
  | cons q l ih =>
    simp only [List.foldl_cons]
    rcases ih (if p.2 < q.2 then q else p) with h | h
    · rw [h]
      by_cases hpq : p.2 < q.2
      · right
        simp [hpq]
      · left
        simp [hpq]
    · right
      exact List.mem_cons_of_mem _ h

lemma pyMaxByVal_mem {l : List (String × Nat)} {b : String × Nat}
    (h : pyMaxByVal l = some b) : b ∈ l := by
  cases l with
  | nil => simp [pyMaxByVal] at h
  | cons p rest =>
    simp only [pyMaxByVal, Option.some.injEq] at h
    rcases pickMax_foldl_mem rest p with h1 | h1
    · rw [← h, h1]
      exact List.mem_cons_self _ _
    · rw [← h]
      exact List.mem_cons_of_mem _ h1

lemma ruleScores_map_fst (t : String) :
    (ruleScores t).map Prod.fst = taxonomyKeys := by
  simp [ruleScores, taxonomyKeys, documentTypes]

lemma ruleScores_ne_nil (t : String) : ruleScores t ≠ [] := by
  simp [ruleScores, documentTypes]

lemma foldl_max_zero (l : List (String × Nat)) (a : Nat)
    (h : ∀ p ∈ l, p.2 = 0) : l.foldl (fun a p => Nat.max a p.2) a = a := by
  induction l generalizing a with
  | nil => rfl
  | cons q l ih =>
    simp only [List.foldl_cons]
    have hq : q.2 = 0 := h q (List.mem_cons_self _ _)
    have hm : a.max 0 = a := by
      cases a <;> rfl
    rw [hq, hm]
    exact ih a (fun p hp => h p (List.mem_cons_of_mem _ hp))

lemma maxScoreVal_zero {l : List (String × Nat)} (h : ∀ p ∈ l, p.2 = 0) :
    maxScoreVal l = 0 := foldl_max_zero l 0 h

lemma roundTo2_three_tenths : roundTo2 (3 / 10 : ℚ) = 3 / 10 := by
  have h : (3 / 10 : ℚ) * 100 = (30 : ℚ) := by norm_num
  rw [roundTo2, h]
  have h30 : rndHalfEven (30 : ℚ) = 30 := by
    simp only [rndHalfEven, Rat.num_ofNat, Rat.den_ofNat]
    norm_num
  rw [h30]
  norm_num

lemma classify_with_rules_scores (text : String) :
    (classify_with_rules text).scores = ruleScores text := by
  simp only [classify_with_rules]
  split <;> rfl

lemma classify_with_rules_conf_bounds (text : String) :
    0 ≤ (classify_with_rules text).confidence ∧
      (classify_with_rules text).confidence ≤ 9 / 10 := by
  simp only [classify_with_rules]
  by_cases hc : ruleScores text = [] ∨ maxScoreVal (ruleScores text) = 0
  · rw [if_pos hc]
    exact ⟨roundTo2_nonneg (by norm_num), roundTo2_le_cap (by norm_num)⟩
  · rw [if_neg hc]
    refine ⟨roundTo2_nonneg ?_, roundTo2_le_cap (min_le_left _ _)⟩
    exact le_min (by norm_num) (div_nonneg (Nat.cast_nonneg _) (Nat.cast_nonneg _))

lemma classify_with_rules_doc_mem (text : String) :
    (classify_with_rules text).document_type ∈ taxonomyKeys := by
  simp only [classify_with_rules]
  by_cases hc : ruleScores text = [] ∨ maxScoreVal (ruleScores text) = 0
  · rw [if_pos hc]
    simp [taxonomyKeys, documentTypes]
  · rw [if_neg hc]
    cases hm : pyMaxByVal (ruleScores text) with
    | none =>
      exfalso
      have hne := ruleScores_ne_nil text
      cases hl : ruleScores text with
      | nil => exact hne hl
      | cons p rest =>
        rw [hl] at hm
        simp [pyMaxByVal] at hm
    | some b =>
      have hb : b ∈ ruleScores text := pyMaxByVal_mem hm
      have hmem : b.1 ∈ (ruleScores text).map Prod.fst := List.mem_map_of_mem _ hb
      rw [ruleScores_map_fst] at hmem
      simpa [hm] using hmem

lemma classify_with_rules_all_zero (text : String)
    (h : ∀ p ∈ ruleScores text, p.2 = 0) :
    (classify_with_rules text).document_type = "GENERAL_INQUIRY" ∧
      (classify_with_rules text).confidence = 3 / 10 := by
  have hc : ruleScores text = [] ∨ maxScoreVal (ruleScores text) = 0 :=
    Or.inr (maxScoreVal_zero h)
  simp only [classify_with_rules]
  rw [if_pos hc]
  exact ⟨rfl, roundTo2_three_tenths⟩

lemma classify_document_blank (env : LLMEnv) (text : String)
    (h : text = "" ∨ pyStrip text.data = []) :
    classify_document env text =
      { initResult with
          error_message := some "Empty or invalid text provided for classification." } := by
  simp only [classify_document]
  rw [if_pos h]

lemma classify_document_rule (env : LLMEnv) (text : String)
    (hne : ¬(text = "" ∨ pyStrip text.data = []))
    (hllm : (if env.utilsAvailable && check_ollama_connection env then
        classify_with_llm env.utilsAvailable env.raw else none) = none) :
    classify_document env text =
      { ruleBranch text with
          extracted_info :=
            extract_key_information text (ruleBranch text).document_type } := by
  simp only [classify_document]
  rw [if_neg hne, hllm]

lemma classify_document_nonblank (env : LLMEnv) (text : String)
    (hne : ¬(text = "" ∨ pyStrip text.data = [])) :
    (classify_document env text).success = true ∧
      ((classify_document env text).method_used = some "LLM" ∨
        (classify_document env text).method_used = some "Rule-based") := by
  simp only [classify_document]
  rw [if_neg hne]
  cases hllm : (if env.utilsAvailable && check_ollama_connection env then
      classify_with_llm env.utilsAvailable env.raw else none) with
  | none => simp [ruleBranch]
  | some obj =>
    by_cases htr : (!obj.isEmpty &&
        ((jget obj "document_type").map jtruthy).getD false &&
        jgetNotNone obj "confidence") = true
    · simp [htr]
    · simp [htr, ruleBranch]

lemma pyStrip_all_ws {l : List Char} (h : l.all isPyWs = true) : pyStrip l = [] := by
  unfold pyStrip
  have h1 : l.dropWhile isPyWs = [] := by
    rw [List.dropWhile_eq_nil_iff]
    intro x hx
    exact (List.all_eq_true.mp h) x hx
  rw [h1]
  rfl

/-! ## Claim theorems -/

/-- C1: for every non-empty input text, `classify_with_rules` returns a
document type in the fixed six-entry taxonomy and a confidence in [0, 0.9];
when every taxonomy entry scores zero it returns GENERAL_INQUIRY with
confidence 0.3, so the classifier never fails and never returns an undefined
type. -/
theorem rule_classifier_taxonomy_and_confidence (text : String)
    (hne : text ≠ "") :
    (classify_with_rules text).document_type ∈ taxonomyKeys ∧
      0 ≤ (classify_with_rules text).confidence ∧
      (classify_with_rules text).confidence ≤ 9 / 10 ∧
      ((∀ p ∈ (classify_with_rules text).scores, p.2 = 0) →
        (classify_with_rules text).document_type = "GENERAL_INQUIRY" ∧
          (classify_with_rules text).confidence = 3 / 10) := by
  obtain ⟨h0, h9⟩ := classify_with_rules_conf_bounds text
  refine ⟨classify_with_rules_doc_mem text, h0, h9, ?_⟩
  intro hz
  rw [classify_with_rules_scores] at hz
  exact classify_with_rules_all_zero text hz

theorem rule_classifier_taxonomy_and_confidence_witness :
    ("hello world" ≠ "") ∧
      ((classify_with_rules "hello world").document_type ∈ taxonomyKeys ∧
        0 ≤ (classify_with_rules "hello world").confidence ∧
        (classify_with_rules "hello world").confidence ≤ 9 / 10 ∧
        ((∀ p ∈ (classify_with_rules "hello world").scores, p.2 = 0) →
          (classify_with_rules "hello world").document_type = "GENERAL_INQUIRY" ∧
            (classify_with_rules "hello world").confidence = 3 / 10)) :=
  ⟨by decide, rule_classifier_taxonomy_and_confidence "hello world" (by decide)⟩

/-- C8: the rule-based classifier is a pure function of the text — identical
inputs give identical (document_type, confidence) pairs. -/
theorem rule_classifier_deterministic (t1 t2 : String) (h : t1 = t2) :
    (classify_with_rules t1).document_type =
        (classify_with_rules t2).document_type ∧
      (classify_with_rules t1).confidence =
        (classify_with_rules t2).confidence := by
  subst h
  exact ⟨rfl, rfl⟩

theorem rule_classifier_deterministic_witness :
    ("Invoice #12" = "Invoice #12") ∧
      ((classify_with_rules "Invoice #12").document_type =
          (classify_with_rules "Invoice #12").document_type ∧
        (classify_with_rules "Invoice #12").confidence =
          (classify_with_rules "Invoice #12").confidence) :=
  ⟨rfl, rule_classifier_deterministic "Invoice #12" "Invoice #12" rfl⟩

/-- C2: for every non-blank text, whenever the model path fails — the
connectivity probe fails (service unreachable or timed out), or
`classify_with_llm` rejects the call outcome (no text, unparseable response,
missing or badly typed fields, unknown document type) — `classify_document`
still succeeds through the rule path with a null error message. -/
theorem model_failure_never_surfaces (text : String) (env : LLMEnv)
    (hne : ¬(text = "" ∨ pyStrip text.data = []))
    (hfail : env.connectionOk = false ∨
      classify_with_llm env.utilsAvailable env.raw = none) :
    (classify_document env text).success = true ∧
      (classify_document env text).method_used = some "Rule-based" ∧
      (classify_document env text).error_message = none := by
  have hllm : (if env.utilsAvailable && check_ollama_connection env then
      classify_with_llm env.utilsAvailable env.raw else none) = none := by
    rcases hfail with h | h <;> simp [check_ollama_connection, h]
  rw [classify_document_rule env text hne hllm]
  simp [ruleBranch, initResult]

theorem model_failure_never_surfaces_witness :
    (¬(("Please review the attached file." : String) = "" ∨
        pyStrip ("Please review the attached file." : String).data = [])) ∧
      ((classify_document ⟨true, true, LLMRaw.badParse⟩
          "Please review the attached file.").success = true ∧
        (classify_document ⟨true, true, LLMRaw.badParse⟩
          "Please review the attached file.").method_used = some "Rule-based" ∧
        (classify_document ⟨true, true, LLMRaw.badParse⟩
          "Please review the attached file.").error_message = none) :=
  ⟨by decide,
    model_failure_never_surfaces "Please review the attached file."
      ⟨true, true, LLMRaw.badParse⟩ (by decide) (Or.inr rfl)⟩

/-- C7: `method_used` is non-null exactly when `success` is true: the blank
input failure leaves it null, while every successful path tags the model or
rule method. -/
theorem method_used_iff_success (env : LLMEnv) (text : String) :
    (classify_document env text).method_used ≠ none ↔
      (classify_document env text).success = true := by
  by_cases h : text = "" ∨ pyStrip text.data = []
  · rw [classify_document_blank env text h]
    simp [initResult]
  · obtain ⟨hs, hm⟩ := classify_document_nonblank env text h
    constructor
    · intro _
      exact hs
    · intro _
      rcases hm with hm | hm <;> simp [hm]

/-- C3: blank input (empty or whitespace-only) makes `classify_document`
fail with an error message, no method, and no extraction; `process_email`
rejects blank content the same way. -/
theorem blank_input_rejected (t : String) (envC : LLMEnv) (envE : EmailEnv)
    (h : t.data.all isPyWs = true) :
    (classify_document envC t).success = false ∧
      (classify_document envC t).error_message ≠ none ∧
      (classify_document envC t).method_used = none ∧
      (classify_document envC t).extracted_info = [] ∧
      (process_email envE (EmailInput.str t)).success = false ∧
      (process_email envE (EmailInput.str t)).error_message ≠ none ∧
      (process_email envE (EmailInput.str t)).method_used = none := by
  have hblank : t = "" ∨ pyStrip t.data = [] := Or.inr (pyStrip_all_ws h)
  have hemail : process_email envE (EmailInput.str t) =
      { success := false, intent := "Unknown", urgency := "Unknown",
        method_used := none,
        error_message :=
          some "Empty or invalid email content provided for processing." } := by
    simp only [process_email, emailTextOf]
    rw [if_pos hblank]
  rw [classify_document_blank envC t hblank, hemail]
  simp [initResult]

theorem blank_input_rejected_witness :
    (("  " : String).data.all isPyWs = true) ∧
      ((classify_document ⟨true, true, LLMRaw.exn⟩ "  ").success = false ∧
        (classify_document ⟨true, true, LLMRaw.exn⟩ "  ").error_message ≠ none ∧
        (classify_document ⟨true, true, LLMRaw.exn⟩ "  ").method_used = none ∧
        (classify_document ⟨true, true, LLMRaw.exn⟩ "  ").extracted_info = [] ∧
        (process_email ⟨true, LLMRaw.exn⟩ (EmailInput.str "  ")).success = false ∧
        (process_email ⟨true, LLMRaw.exn⟩ (EmailInput.str "  ")).error_message ≠ none ∧
        (process_email ⟨true, LLMRaw.exn⟩ (EmailInput.str "  ")).method_used = none) :=
  ⟨by decide, blank_input_rejected "  " ⟨true, true, LLMRaw.exn⟩ ⟨true, LLMRaw.exn⟩
    (by decide)⟩

/-- C9: any email whose lowered text contains "quote" is classified as
Quote Request by the rule-based email classifier, regardless of which other
rule keywords also occur — the first declared rule wins. -/
theorem email_quote_rule_wins (t : String)
    (h : pySubstr "quote".data (pyLower t).data = true) :
    (rule_based_email_intent t).intent = "Quote Request" := by
  simp only [rule_based_email_intent]
  simp [List.any_cons, h]

theorem email_quote_rule_wins_witness :
    (pySubstr "quote".data
        (pyLower "Send a quote ASAP, this urgent order needs support").data = true) ∧
      (rule_based_email_intent
        "Send a quote ASAP, this urgent order needs support").intent =
        "Quote Request" :=
  ⟨by decide,
    email_quote_rule_wins "Send a quote ASAP, this urgent order needs support"
      (by decide)⟩

/-- C10: when the model returns a parsed object with string intent and
urgency but an intent outside the allowed list, `process_email` does not fall
back to the rules: it succeeds on the model path with the intent silently
coerced to Other, and an unknown urgency coerced to Normal. -/
theorem email_unknown_intent_coerced (t : String)
    (obj : List (String × JVal)) (i u : String)
    (hne : ¬(t = "" ∨ pyStrip t.data = []))
    (hi : jget obj "intent" = some (JVal.jstr i))
    (hu : jget obj "urgency" = some (JVal.jstr u))
    (hbad : allowedIntents.contains i = false) :
    (process_email ⟨true, LLMRaw.dict obj⟩ (EmailInput.str t)).success = true ∧
      (process_email ⟨true, LLMRaw.dict obj⟩ (EmailInput.str t)).method_used =
        some "LLM" ∧
      (process_email ⟨true, LLMRaw.dict obj⟩ (EmailInput.str t)).intent =
        "Other" ∧
      (allowedUrgencies.contains u = false →
        (process_email ⟨true, LLMRaw.dict obj⟩ (EmailInput.str t)).urgency =
          "Normal") := by
  have hllm : classify_email_intent_with_llm true (LLMRaw.dict obj) =
      Except.ok
        { intent := if allowedIntents.contains i then i else "Other",
          urgency := if allowedUrgencies.contains u then u else "Normal" } := by
    simp only [classify_email_intent_with_llm]
    rw [hi, hu]
    rfl
  simp only [process_email, emailTextOf]
  rw [if_neg hne, hllm]
  simp [hbad]
  refine ⟨fun him => absurd him (by simpa using hbad), fun h1 h2 => absurd h2 h1⟩

theorem email_unknown_intent_coerced_witness :
    (¬(("When can you deliver?" : String) = "" ∨
        pyStrip ("When can you deliver?" : String).data = [])) ∧
      (jget [("intent", JVal.jstr "Sales"), ("urgency", JVal.jstr "Extreme")]
          "intent" = some (JVal.jstr "Sales")) ∧
      (jget [("intent", JVal.jstr "Sales"), ("urgency", JVal.jstr "Extreme")]
          "urgency" = some (JVal.jstr "Extreme")) ∧
      (allowedIntents.contains "Sales" = false) ∧
      ((process_email
          ⟨true, LLMRaw.dict
            [("intent", JVal.jstr "Sales"), ("urgency", JVal.jstr "Extreme")]⟩
          (EmailInput.str "When can you deliver?")).success = true ∧
        (process_email
          ⟨true, LLMRaw.dict
            [("intent", JVal.jstr "Sales"), ("urgency", JVal.jstr "Extreme")]⟩
          (EmailInput.str "When can you deliver?")).method_used = some "LLM" ∧
        (process_email
          ⟨true, LLMRaw.dict
            [("intent", JVal.jstr "Sales"), ("urgency", JVal.jstr "Extreme")]⟩
          (EmailInput.str "When can you deliver?")).intent = "Other" ∧
        (allowedUrgencies.contains "Extreme" = false →
          (process_email
            ⟨true, LLMRaw.dict
              [("intent", JVal.jstr "Sales"), ("urgency", JVal.jstr "Extreme")]⟩
            (EmailInput.str "When can you deliver?")).urgency = "Normal")) :=
  ⟨by decide, by decide, by decide, by decide,
    email_unknown_intent_coerced "When can you deliver?"
      [("intent", JVal.jstr "Sales"), ("urgency", JVal.jstr "Extreme")]
      "Sales" "Extreme" (by decide) (by decide) (by decide) (by decide)⟩

lemma classify_with_llm_some {avail : Bool} {raw : LLMRaw}
    {obj : List (String × JVal)}
    (h : classify_with_llm avail raw = some obj) :
    raw = LLMRaw.dict obj ∧ (jget obj "confidence").isSome := by
  cases raw with
  | dict o =>
    simp only [classify_with_llm] at h
    by_cases ha : avail = true
    · rw [ha] at h
      simp only [Bool.not_true] at h
      rw [if_neg (by simp)] at h
      by_cases hv : (((jget o "document_type").map isStrNumBool).getD false &&
          ((jget o "confidence").map isStrNumBool).getD false &&
          (jget o "reasoning").isSome) = true
      · rw [if_pos hv] at h
        have hcs : ((jget o "confidence").map isStrNumBool).getD false = true := by
          simp only [Bool.and_eq_true] at hv
          exact hv.1.2
        have hcsome : (jget o "confidence").isSome := by
          cases hc : jget o "confidence" with
          | none => rw [hc] at hcs; simp at hcs
          | some v => rfl
        split at h
        · split at h
          · split at h
            · exact absurd h (by simp)
            · simp only [Option.some.injEq] at h
              subst h
              exact ⟨rfl, hcsome⟩
          · exact absurd h (by simp)
        · exact absurd h (by simp)
      · rw [if_neg hv] at h; simp at h
    · have ha2 : avail = false := by
        cases avail
        · rfl
        · exact absurd rfl ha
      rw [ha2] at h
      simp at h
  | exn => exfalso; revert h; simp [classify_with_llm]
  | noText => exfalso; revert h; simp [classify_with_llm]
  | badParse => exfalso; revert h; simp [classify_with_llm]
  | nonDict truthy => exfalso; revert h; simp [classify_with_llm]

/-- A model answer that validates (type in the taxonomy, numeric confidence)
but carries a confidence outside [0, 1]. -/
def overConfidentEnv : LLMEnv :=
  ⟨true, true, LLMRaw.dict
    [("document_type", JVal.jstr "INVOICE"),
     ("confidence", JVal.jnum 5),
     ("reasoning", JVal.jstr "sure")]⟩

/-- C4 is false as stated: the coordinator passes a numeric model confidence
through without any range check, so a model value of 5 is returned as the
final confidence on the model path. -/
theorem confidence_unclamped_counterexample :
    (classify_document overConfidentEnv "invoice").method_used = some "LLM" ∧
      (classify_document overConfidentEnv "invoice").confidence =
        JVal.jnum 5 ∧
      ¬((5 : ℚ) ≤ 1) :=
  ⟨by decide, by decide, by norm_num⟩

/-- C4, amended: on the rule path the confidence is a rational in [0, 1]
(indeed at most 0.9); on the model path the confidence is exactly the value
the model supplied, unclamped, so it lies in [0, 1] only when that value
does. -/
theorem confidence_rule_bounded_model_passthrough (env : LLMEnv)
    (text : String) :
    ((classify_document env text).method_used = some "Rule-based" →
      ∃ q : ℚ, (classify_document env text).confidence = JVal.jnum q ∧
        0 ≤ q ∧ q ≤ 1) ∧
    ((classify_document env text).method_used = some "LLM" →
      ∃ obj, env.raw = LLMRaw.dict obj ∧
        some (classify_document env text).confidence =
          jget obj "confidence") := by
  by_cases hb : text = "" ∨ pyStrip text.data = []
  · rw [classify_document_blank env text hb]
    constructor
    · intro hm
      exact absurd hm (by simp [initResult])
    · intro hm
      exact absurd hm (by simp [initResult])
  · cases hif : (if env.utilsAvailable && check_ollama_connection env then
        classify_with_llm env.utilsAvailable env.raw else none) with
    | none =>
      rw [classify_document_rule env text hb hif]
      constructor
      · intro _
        refine ⟨(classify_with_rules text).confidence, by simp [ruleBranch], ?_, ?_⟩
        · exact (classify_with_rules_conf_bounds text).1
        · exact le_trans (classify_with_rules_conf_bounds text).2 (by norm_num)
      · intro hm
        exact absurd hm (by simp [ruleBranch, initResult])
    | some obj =>
      have hcl : classify_with_llm env.utilsAvailable env.raw = some obj := by
        by_cases hc : (env.utilsAvailable && check_ollama_connection env) = true
        · rwa [if_pos hc] at hif
        · rw [if_neg hc] at hif
          exact absurd hif (by simp)
      obtain ⟨hraw, hsome⟩ := classify_with_llm_some hcl
      by_cases htr : (!obj.isEmpty &&
          ((jget obj "document_type").map jtruthy).getD false &&
          jgetNotNone obj "confidence") = true
      · have hconf : (classify_document env text).confidence =
            (jget obj "confidence").getD (JVal.jnum 0) := by
          simp only [classify_document]
          rw [if_neg hb, hif]
          simp [htr]
        have hmeth : (classify_document env text).method_used = some "LLM" := by
          simp only [classify_document]
          rw [if_neg hb, hif]
          simp [htr]
        constructor
        · intro hm
          rw [hmeth] at hm
          exact absurd hm (by simp)
        · intro _
          obtain ⟨v, hv⟩ := Option.isSome_iff_exists.mp hsome
          exact ⟨obj, hraw, by rw [hconf, hv]; rfl⟩
      · have hconf2 : (classify_document env text).confidence =
            JVal.jnum (classify_with_rules text).confidence := by
          simp only [classify_document]
          rw [if_neg hb, hif]
          simp [htr, ruleBranch]
        have hmeth2 : (classify_document env text).method_used =
            some "Rule-based" := by
          simp only [classify_document]
          rw [if_neg hb, hif]
          simp [htr, ruleBranch]
        constructor
        · intro _
          exact ⟨(classify_with_rules text).confidence, hconf2,
            (classify_with_rules_conf_bounds text).1,
            le_trans (classify_with_rules_conf_bounds text).2 (by norm_num)⟩
        · intro hm
          rw [hmeth2] at hm
          exact absurd hm (by simp)

theorem confidence_rule_bounded_model_passthrough_witness :
    ((classify_document ⟨false, false, LLMRaw.exn⟩ "zz").method_used =
        some "Rule-based") ∧
      (∃ q : ℚ, (classify_document ⟨false, false, LLMRaw.exn⟩ "zz").confidence =
          JVal.jnum q ∧ 0 ≤ q ∧ q ≤ 1) :=
  ⟨by decide,
    (confidence_rule_bounded_model_passthrough ⟨false, false, LLMRaw.exn⟩ "zz").1
      (by decide)⟩

/-- Python `extracted_info.get(k)` on the extraction mapping. -/
def infoGet (info : List (String × Option String)) (k : String) :
    Option (Option String) :=
  (info.find? (fun p => p.1 = k)).map (fun p => p.2)

/-- The purchase-order scenario text of spec property 8, also test case 4 of
the module's own sample run. -/
def poSampleText : String :=
  "Purchase Order No. PO-45678 from Vendor Solutions for 100 keyboards."

/-- Model service unreachable: the connectivity probe fails. -/
def unreachableEnv : LLMEnv := ⟨true, false, LLMRaw.exn⟩

/-- C5: on the purchase-order scenario with the model unreachable the rule
path does classify PURCHASE_ORDER, but the extracted po_number is "no" — the
captured token is the literal "No." prefix, not "po-45678": the optional
prefix alternative for "no." in the extraction pattern consumes no trailing
whitespace (unlike the "number" alternative), so the capture group starts at
"no" instead of skipping past it. -/
theorem po_scenario_extracts_no :
    (classify_document unreachableEnv poSampleText).document_type =
        some "PURCHASE_ORDER" ∧
      (classify_document unreachableEnv poSampleText).method_used =
        some "Rule-based" ∧
      infoGet (classify_document unreachableEnv poSampleText).extracted_info
          "po_number" = some (some "no") ∧
      infoGet (classify_document unreachableEnv poSampleText).extracted_info
          "po_number" ≠ some (some "po-45678") :=
  ⟨by decide, by decide, by decide, by decide⟩

/-- The invoice extraction round-trip text of spec property 6. -/
def invoiceSampleText : String :=
  "Invoice #INV-2023-001\nTotal Amount: $1250.75\nDue Date: 11/15/2024"

/-- C6: field extraction on the invoice sample with type INVOICE yields
exactly the invoice number, the amount with commas stripped, and the due
date claimed by the spec. -/
theorem invoice_extraction_round_trip :
    extract_key_information invoiceSampleText (some "INVOICE") =
      [("invoice_number", some "inv-2023-001"),
       ("amount", some "1250.75"),
       ("due_date", some "11/15/2024")] := by
  decide
